import Mathlib

/-!
Verification of the teia-stats user-activity aggregation model and token
distribution computation.

The definitions below are a shallow embedding of the Python sources:
  * `scripts/tokenDistribution.py` (scaling factor and token allocation),
  * `teiaUtils/teiaUsers.py` (`TeiaUser` / `TeiaUsers` event ingestion,
    profile enrichment, connection compression and selection).

Python floats are modelled as exact rationals (`ℚ`); numpy float division by
zero, which silently yields a non-finite value (NaN) instead of raising, is
modelled by `Option ℚ` with `none` standing for the non-finite result.
`pow(0.5)` is modelled by `Rat.sqrt`, which agrees with the float square root
on the perfect-square inputs used in all concrete evaluations (and all general
theorems below are independent of the exact square-root values).
-/

namespace TeiaStats

/-! ## Token distribution (`scripts/tokenDistribution.py`) -/

/-- One row of the `teia_users.csv` table consumed by the token distribution
script, restricted to the columns the script reads. -/
structure DistUser where
  restricted : Bool
  has_profile : Bool
  verified : Bool
  contribution_level : Nat
  active_days : Nat
  teia_active_days : Nat
  teia_votes : Nat
  minted_objkts : Nat
  collected_objkts : Nat
  connections_to_users : Nat
  money_earned_own_objkts : ℚ
  money_spent : ℚ
  wash_trader : Bool
  hdao : ℚ
deriving Repr, DecidableEq

/-- `users = users[users["restricted"] == False]`: the script drops restricted
rows before any computation. -/
def nonRestricted (users : List DistUser) : List DistUser :=
  users.filter (fun u => !u.restricted)

/-- The per-user scaling factor `sf`, mirroring the sequence of vectorized
assignments in `tokenDistribution.py` lines 33-41: base 1, 2 for profiled
users, 3 for verified users, zeroed by the activity floor, and finally forced
to 3 for contributors (`contribution_level > 0`). -/
def scalingFactor (u : DistUser) : ℚ :=
  let sf : ℚ := 1
  let sf := if u.has_profile then 2 else sf
  let sf := if u.verified then 3 else sf
  let sf := if u.active_days < 14 ∧ u.teia_votes = 0 ∧ u.money_spent < 1000
            then 0 else sf
  let sf := if u.contribution_level > 0 then 3 else sf
  sf

/-- `total_amount = 5.5e6` -/
def totalAmount : ℚ := 5500000

/-- `treasury_amount = 3.5e5` -/
def treasuryAmount : ℚ := 350000

/-- `users["hdao"].sum()` -/
def hdaoSum (users : List DistUser) : ℚ := (users.map (fun u => u.hdao)).sum

/-- `total_activity_amount = total_amount - treasury_amount - users["hdao"].sum()` -/
def totalActivityAmount (users : List DistUser) : ℚ :=
  totalAmount - treasuryAmount - hdaoSum users

/-- numpy float division: division by zero does not raise; it silently yields
a non-finite value (NaN here, since every numerator is zero whenever the
column sum is zero). `none` models that non-finite result. -/
def npDiv (a b : ℚ) : Option ℚ := if b = 0 then none else some (a / b)

/-- float addition; non-finite values (NaN) propagate through sums. -/
def fadd : Option ℚ → Option ℚ → Option ℚ
  | some a, some b => some (a + b)
  | _, _ => none

/-- `(~users["wash_trader"])` used as a 0/1 multiplier. -/
def washMult (u : DistUser) : ℚ := if u.wash_trader then 0 else 1

/-- `sf * users["active_days"]` -/
def rawActivity (u : DistUser) : ℚ := scalingFactor u * u.active_days

/-- `sf * users["teia_active_days"]` -/
def rawTeiaActivity (u : DistUser) : ℚ := scalingFactor u * u.teia_active_days

/-- `sf * users["teia_votes"].pow(0.5)` -/
def rawVoting (u : DistUser) : ℚ := scalingFactor u * Rat.sqrt u.teia_votes

/-- `sf * users["minted_objkts"].pow(0.5)` -/
def rawMinting (u : DistUser) : ℚ := scalingFactor u * Rat.sqrt u.minted_objkts

/-- `sf * users["collected_objkts"].pow(0.5)` -/
def rawCollecting (u : DistUser) : ℚ :=
  scalingFactor u * Rat.sqrt u.collected_objkts

/-- `sf * users["connections_to_users"].pow(0.5)` -/
def rawConnections (u : DistUser) : ℚ :=
  scalingFactor u * Rat.sqrt u.connections_to_users

/-- `sf * (~users["wash_trader"]) * users["money_earned_own_objkts"].pow(0.5)` -/
def rawEarnings (u : DistUser) : ℚ :=
  scalingFactor u * washMult u * Rat.sqrt u.money_earned_own_objkts

/-- `sf * (~users["wash_trader"]) * users["money_spent"].pow(0.5)` -/
def rawSpending (u : DistUser) : ℚ :=
  scalingFactor u * washMult u * Rat.sqrt u.money_spent

/-- `sf * users["contribution_level"]` -/
def rawContribution (u : DistUser) : ℚ :=
  scalingFactor u * u.contribution_level

/-- `weight * total_activity_amount * amount / amount.sum()` for one user and
one weighted component. -/
def compAmount (w : ℚ) (users : List DistUser) (raw : DistUser → ℚ)
    (u : DistUser) : Option ℚ :=
  npDiv (w * totalActivityAmount users * raw u) ((users.map raw).sum)

/-- `users["total_activity_amount"]`: the sum of the nine weighted component
amounts, with the weights 0.15, 0.15, 0.10, 0.06, 0.08, 0.06, 0.15, 0.15,
0.08 from the script. -/
def userTotalActivity (users : List DistUser) (u : DistUser) : Option ℚ :=
  fadd (fadd (fadd (fadd (fadd (fadd (fadd (fadd
    (compAmount (15/100) users rawActivity u)
    (compAmount (15/100) users rawTeiaActivity u))
    (compAmount (10/100) users rawVoting u))
    (compAmount (6/100) users rawMinting u))
    (compAmount (8/100) users rawCollecting u))
    (compAmount (6/100) users rawConnections u))
    (compAmount (15/100) users rawEarnings u))
    (compAmount (15/100) users rawSpending u))
    (compAmount (8/100) users rawContribution u)

/-- `users["total_amount"] = users["total_activity_amount"] + users["hdao_amount"]`
where `users["hdao_amount"] = users["hdao"]`. -/
def userTotal (users : List DistUser) (u : DistUser) : Option ℚ :=
  fadd (userTotalActivity users u) (some u.hdao)

/-- Sum of a list of float values; NaN propagates. -/
def optSum (l : List (Option ℚ)) : Option ℚ := l.foldr fadd (some 0)

/-- `users["total_amount"].sum()` over the non-restricted users table. -/
def grandTotal (users : List DistUser) : Option ℚ :=
  optSum ((nonRestricted users).map (userTotal (nonRestricted users)))

/-! ## String helpers

Python string operations are modelled structurally over the character list of
a `String`, so that they reduce inside the kernel. -/

/-- Lexicographic comparison of character lists by code point, as Python
compares strings. -/
def charListLt : List Char → List Char → Bool
  | [], [] => false
  | [], _ :: _ => true
  | _ :: _, [] => false
  | a :: as, b :: bs =>
    if a.toNat < b.toNat then true
    else if b.toNat < a.toNat then false
    else charListLt as bs

/-- Python `a < b` on strings (used on fixed-width ISO-8601 timestamps). -/
def strLt (a b : String) : Bool := charListLt a.data b.data

/-- Python `str.strip()`. -/
def pyStrip (s : String) : String :=
  ⟨((s.data.dropWhile Char.isWhitespace).reverse.dropWhile
      Char.isWhitespace).reverse⟩

/-- Helper for `pyReplace`: replaces every occurrence of `pat` (non-empty) by
`rep`, skipping `k` remaining characters of an already-replaced occurrence. -/
def replaceChars (pat rep : List Char) : Nat → List Char → List Char
  | _, [] => []
  | Nat.succ k, _ :: rest => replaceChars pat rep k rest
  | 0, c :: rest =>
    if pat ≠ [] ∧ pat.isPrefixOf (c :: rest) then
      rep ++ replaceChars pat rep (pat.length - 1) rest
    else c :: replaceChars pat rep 0 rest

/-- Python `s.replace(pat, rep)`. -/
def pyReplace (s pat rep : String) : String :=
  ⟨replaceChars pat.data rep.data 0 s.data⟩

/-- Python `s[:n]`. -/
def pyTake (s : String) (n : Nat) : String := ⟨s.data.take n⟩

/-- Python `s.split(sep)[0]` for a one-character separator. -/
def splitHead (s : String) (sep : Char) : String :=
  ⟨s.data.takeWhile (fun c => c != sep)⟩

/-- Python `s.startswith(pre)`. -/
def pyStartsWith (s pre : String) : Bool := pre.data.isPrefixOf s.data

/-! ## `TeiaUser` (`teiaUtils/teiaUsers.py`) -/

/-- A `{"type": ..., "timestamp": ...}` first/last-activity entry. -/
structure ActivityStamp where
  type : String
  timestamp : String
deriving Repr, DecidableEq

/-- A `{"id": ..., "timestamp": ...}` first/last mint/collect/swap entry. -/
structure ObjktStamp where
  id : Nat
  timestamp : String
deriving Repr, DecidableEq

/-- The "check if it's the first ... activity" block. -/
def minActivity (cur : Option ActivityStamp) (ty timestamp : String) :
    Option ActivityStamp :=
  match cur with
  | none => some ⟨ty, timestamp⟩
  | some s => if strLt timestamp s.timestamp then some ⟨ty, timestamp⟩ else some s

/-- The "check if it's the last ... activity" block. -/
def maxActivity (cur : Option ActivityStamp) (ty timestamp : String) :
    Option ActivityStamp :=
  match cur with
  | none => some ⟨ty, timestamp⟩
  | some s => if strLt s.timestamp timestamp then some ⟨ty, timestamp⟩ else some s

/-- The "check if it's the first mint/collect/swap" block. -/
def minObjkt (cur : Option ObjktStamp) (id : Nat) (timestamp : String) :
    Option ObjktStamp :=
  match cur with
  | none => some ⟨id, timestamp⟩
  | some s => if strLt timestamp s.timestamp then some ⟨id, timestamp⟩ else some s

/-- The "check if it's the last mint/collect/swap" block. -/
def maxObjkt (cur : Option ObjktStamp) (id : Nat) (timestamp : String) :
    Option ObjktStamp :=
  match cur with
  | none => some ⟨id, timestamp⟩
  | some s => if strLt s.timestamp timestamp then some ⟨id, timestamp⟩ else some s

/-- The `TeiaUser` class attributes (constructor defaults in
`TeiaUser.__init__`); fields only read and written by the excluded glue
(`tzkt_metadata`, `tzprofile` raw records) are kept as the derived username
fields. -/
structure TeiaUser where
  address : String
  id : Nat
  type : Option String := none
  restricted : Bool := false
  wash_trader : Bool := false
  username : Option String := none
  tzkt_username : Option String := none
  tzprofiles_username : Option String := none
  hen_username : Option String := none
  fxhash_username : Option String := none
  twitter : Option String := none
  discord : Option String := none
  tezos_domains : List String := []
  verified : Bool := false
  hdao : Int := 0
  hdao_snapshot_level : Option Int := none
  contribution_level : Nat := 0
  contribution_type : String := ""
  first_activity : Option ActivityStamp := none
  last_activity : Option ActivityStamp := none
  first_mint : Option ObjktStamp := none
  last_mint : Option ObjktStamp := none
  first_collect : Option ObjktStamp := none
  last_collect : Option ObjktStamp := none
  first_swap : Option ObjktStamp := none
  last_swap : Option ObjktStamp := none
  mint_timestamps : List String := []
  collect_timestamps : List String := []
  swap_timestamps : List String := []
  teia_activity_timestamps : List String := []
  minted_objkts : List Nat := []
  collected_objkts : List Nat := []
  swapped_objkts : List Nat := []
  money_earned_own_objkts : List ℚ := []
  money_earned_other_objkts : List ℚ := []
  money_spent : List ℚ := []
  total_money_earned_own_objkts : ℚ := 0
  total_money_earned_collaborations_objkts : ℚ := 0
  total_money_earned_other_objkts : ℚ := 0
  total_money_earned : ℚ := 0
  total_money_spent : ℚ := 0
  artist_connections : List (String × Nat) := []
  collector_connections : List (String × Nat) := []
  collaborations : List String := []
  teia_community_votes : List (String × String) := []
deriving Repr, DecidableEq

/-- `TeiaUser(address, id)` -/
def TeiaUser.new (address : String) (id : Nat) : TeiaUser :=
  { address := address, id := id }

/-- A mint transaction: `parameter.value.token_id` and `timestamp`. -/
structure MintTx where
  token_id : Nat
  timestamp : String
deriving Repr, DecidableEq

/-- The fields of a `mint_OBJKT` transaction the registry reads
(`sender.address`). -/
structure OriginTx where
  sender : String
deriving Repr, DecidableEq

/-- `transaction["parameter"]["value"]` of a collect: either a dict holding
`swap_id` or the bare swap id (both forms occur and are supported). -/
inductive CollectParam where
  | record (swap_id : Nat)
  | scalar (swap_id : Nat)
deriving Repr, DecidableEq

/-- The `isinstance(parameters, dict)` dispatch extracting the swap id. -/
def CollectParam.swapId : CollectParam → Nat
  | .record s => s
  | .scalar s => s

/-- A collect transaction: parameter payload, `amount` in mutez,
`sender.address`, `target.address` and `timestamp`. -/
structure CollectTx where
  param : CollectParam
  amount : Nat
  sender : String
  target : String
  timestamp : String
deriving Repr, DecidableEq

/-- A swap transaction: `parameter.value.objkt_id`, `sender.address`,
`target.address` and `timestamp`. -/
structure SwapTx where
  objkt_id : Nat
  sender : String
  target : String
  timestamp : String
deriving Repr, DecidableEq

/-- A `swaps` bigmap entry: `{issuer, objkt_id}`. -/
structure SwapInfo where
  issuer : String
  objkt_id : Nat
deriving Repr, DecidableEq

/-- A `royalties` bigmap entry: `{issuer, royalties}` with the royalties as a
per-mille integer. -/
structure RoyaltyInfo where
  issuer : String
  royalties : Nat
deriving Repr, DecidableEq

/-- The Teia marketplace contract address compared against
`transaction["target"]["address"]`. -/
def teiaMarketplaceAddress : String := "KT1PHubm9HtyQEJ4BBpMTVomq6mhbfNZ9z5w"

/-- `if addr in conns: conns[addr] += 1 else: conns[addr] = 1` on an
insertion-ordered mapping. -/
def incrConn (conns : List (String × Nat)) (addr : String) :
    List (String × Nat) :=
  match conns.lookup addr with
  | some _ => conns.map (fun p => if p.1 = addr then (p.1, p.2 + 1) else p)
  | none => conns ++ [(addr, 1)]

/-- The body shared by `add_mint_transaction` and the mint re-attribution loop
of `add_artists_collaborations`: set type to artist, update activity and mint
extrema, append to the mint lists. -/
def TeiaUser.applyMint (u : TeiaUser) (objkt_id : Nat) (timestamp : String) :
    TeiaUser :=
  { u with
    type := some "artist"
    first_activity := minActivity u.first_activity "mint" timestamp
    last_activity := maxActivity u.last_activity "mint" timestamp
    first_mint := minObjkt u.first_mint objkt_id timestamp
    last_mint := maxObjkt u.last_mint objkt_id timestamp
    mint_timestamps := u.mint_timestamps ++ [timestamp]
    minted_objkts := u.minted_objkts ++ [objkt_id] }

/-- `TeiaUser.add_mint_transaction` -/
def TeiaUser.add_mint_transaction (u : TeiaUser) (tx : MintTx) : TeiaUser :=
  u.applyMint tx.token_id tx.timestamp

/-- The "check if the user is the OBJKT creator" branch of
`add_collect_transaction`. -/
def collectAsCreator (u : TeiaUser) (creator_address collector_address : String)
    (paid_amount objkt_royalties : ℚ) : TeiaUser :=
  if u.address = creator_address then
    let money_earned := paid_amount * objkt_royalties
    { u with
      type := some "artist"
      money_earned_own_objkts := u.money_earned_own_objkts ++ [money_earned]
      total_money_earned_own_objkts :=
        u.total_money_earned_own_objkts + money_earned
      total_money_earned := u.total_money_earned + money_earned
      collector_connections := incrConn u.collector_connections collector_address }
  else u

/-- The "set the user type as swapper if it's not an artist nor a patron"
update, shared by the seller branch of `add_collect_transaction` and
`add_swap_transaction`. -/
def promoteSwapper (u : TeiaUser) : TeiaUser :=
  if u.type ≠ some "artist" ∧ u.type ≠ some "patron" then
    { u with type := some "swapper" } else u

/-- The "set the user type as patron if it's not an artist" update of the
collector branch of `add_collect_transaction`. -/
def promotePatron (u : TeiaUser) : TeiaUser :=
  if u.type ≠ some "artist" then { u with type := some "patron" } else u

/-- The "check if the user is the seller" branch of `add_collect_transaction`
(`site_fees = 25 / 1000`). -/
def collectAsSeller (u : TeiaUser) (creator_address seller_address : String)
    (paid_amount objkt_royalties : ℚ) : TeiaUser :=
  if u.address = seller_address then
    let u := promoteSwapper u
    let site_fees : ℚ := 25 / 1000
    let money_earned := paid_amount * (1 - objkt_royalties - site_fees)
    let u := if u.address = creator_address then
        { u with
          money_earned_own_objkts := u.money_earned_own_objkts ++ [money_earned]
          total_money_earned_own_objkts :=
            u.total_money_earned_own_objkts + money_earned }
      else
        { u with
          money_earned_other_objkts :=
            u.money_earned_other_objkts ++ [money_earned]
          total_money_earned_other_objkts :=
            u.total_money_earned_other_objkts + money_earned }
    { u with total_money_earned := u.total_money_earned + money_earned }
  else u

/-- The "check if the user is the collector" branch of
`add_collect_transaction`. -/
def collectAsCollector (u : TeiaUser)
    (creator_address collector_address marketplace_address : String)
    (objkt_id : Nat) (timestamp : String) (paid_amount : ℚ) : TeiaUser :=
  if u.address = collector_address then
    let u := promotePatron u
    let u := { u with
      first_activity := minActivity u.first_activity "collect" timestamp
      last_activity := maxActivity u.last_activity "collect" timestamp
      first_collect := minObjkt u.first_collect objkt_id timestamp
      last_collect := maxObjkt u.last_collect objkt_id timestamp
      collect_timestamps := u.collect_timestamps ++ [timestamp]
      collected_objkts := u.collected_objkts ++ [objkt_id] }
    let u := if marketplace_address = teiaMarketplaceAddress then
        { u with teia_activity_timestamps :=
            u.teia_activity_timestamps ++ [timestamp] }
      else u
    { u with
      money_spent := u.money_spent ++ [paid_amount]
      total_money_spent := u.total_money_spent + paid_amount
      artist_connections := incrConn u.artist_connections creator_address }
  else u

/-- `TeiaUser.add_collect_transaction`: the swap and royalties lookups happen
first; a missing key is a `KeyError` (modelled by `Except.error`) and no field
is updated. The three role branches are applied in source order. -/
def TeiaUser.add_collect_transaction (u : TeiaUser) (tx : CollectTx)
    (swaps : List (Nat × SwapInfo)) (royalties : List (Nat × RoyaltyInfo)) :
    Except String TeiaUser :=
  let swap_id := tx.param.swapId
  match swaps.lookup swap_id with
  | none => .error "KeyError: swap_id"
  | some swap =>
    match royalties.lookup swap.objkt_id with
    | none => .error "KeyError: objkt_id"
    | some roy =>
      let objkt_royalties : ℚ := (roy.royalties : ℚ) / 1000
      let paid_amount : ℚ := (tx.amount : ℚ) / 1000000
      let u := collectAsCreator u roy.issuer tx.sender paid_amount
        objkt_royalties
      let u := collectAsSeller u roy.issuer swap.issuer paid_amount
        objkt_royalties
      let u := collectAsCollector u roy.issuer tx.sender tx.target
        swap.objkt_id tx.timestamp paid_amount
      .ok u

/-- `TeiaUser.add_swap_transaction` -/
def TeiaUser.add_swap_transaction (u : TeiaUser) (tx : SwapTx) : TeiaUser :=
  let u := promoteSwapper u
  let u := { u with
    first_activity := minActivity u.first_activity "swap" tx.timestamp
    last_activity := maxActivity u.last_activity "swap" tx.timestamp
    first_swap := minObjkt u.first_swap tx.objkt_id tx.timestamp
    last_swap := maxObjkt u.last_swap tx.objkt_id tx.timestamp
    swap_timestamps := u.swap_timestamps ++ [tx.timestamp]
    swapped_objkts := u.swapped_objkts ++ [tx.objkt_id] }
  if tx.target = teiaMarketplaceAddress then
    { u with teia_activity_timestamps :=
        u.teia_activity_timestamps ++ [tx.timestamp] }
  else u

/-- The `storage` record of an artists-collaboration origination:
`coreParticipants`, `shares` and `totalShares`. -/
structure CollabStorage where
  coreParticipants : List String
  shares : List (String × Nat)
  totalShares : Nat
deriving Repr, DecidableEq

/-- One `artists_collaborations` entry (the code reads its `storage` field). -/
structure CollabOrigination where
  storage : CollabStorage
deriving Repr, DecidableEq

/-- The body of the `add_artists_collaborations` loop for a single
collaboration entry. A missing `shares[self.address]` key would be a Python
`KeyError`, modelled by `Except.error`. -/
def addCollabStep (u : TeiaUser) (entry : String × CollabOrigination)
    (signatures : List (String × List Nat)) (users : List (String × TeiaUser)) :
    Except String TeiaUser :=
  let address := entry.1
  let collaboration := entry.2
  let u := if u.address = address then { u with type := some "collaboration" }
    else u
  if u.address ∈ collaboration.storage.coreParticipants then
    let signed_objkts := (signatures.lookup u.address).getD []
    match users.lookup address with
    | none => .ok u
    | some collab =>
      if collab.minted_objkts.length > 0 then
        let u := if collab.minted_objkts.any (fun o => signed_objkts.contains o)
          then { u with collaborations := u.collaborations ++ [address] } else u
        let u := (collab.mint_timestamps.zip collab.minted_objkts).foldl
          (fun u p => if p.2 ∈ signed_objkts then u.applyMint p.2 p.1 else u) u
        match collaboration.storage.shares.lookup u.address with
        | none => .error "KeyError: shares"
        | some sh =>
          let share : ℚ := (sh : ℚ) / (collaboration.storage.totalShares : ℚ)
          .ok { u with
            total_money_earned_collaborations_objkts :=
              u.total_money_earned_collaborations_objkts +
                share * collab.total_money_earned_own_objkts
            total_money_earned :=
              u.total_money_earned + share * collab.total_money_earned }
      else .ok u
  else .ok u

/-- `TeiaUser.add_artists_collaborations`: loop over the collaborations. -/
def TeiaUser.add_artists_collaborations (u : TeiaUser)
    (artists_collaborations : List (String × CollabOrigination))
    (signatures : List (String × List Nat))
    (users : List (String × TeiaUser)) : Except String TeiaUser :=
  match artists_collaborations with
  | [] => .ok u
  | entry :: rest =>
    match addCollabStep u entry signatures users with
    | .error e => .error e
    | .ok u' => u'.add_artists_collaborations rest signatures users

/-- A `tezos_domains_owners[address]` list entry:
`{address, domain, data}` with the optional `data["twitter:handle"]`. -/
structure DomainRecord where
  address : String
  domain : String
  twitter_handle : Option String
deriving Repr, DecidableEq

/-- A non-empty `tzkt_metadata[address]` record: the `alias` field is always
read; the social fields are presence-checked. -/
structure TzktMeta where
  «alias» : String
  twitter : Option String
  discord : Option String
  github : Option String
  gitlab : Option String
  facebook : Option String
  reddit : Option String
  instagram : Option String
deriving Repr, DecidableEq

/-- A `tzprofiles[address]` record with nullable fields. -/
structure TzProfile where
  «alias» : Option String
  twitter : Option String
  discord : Option String
  github : Option String
  domain_name : Option String
  ethereum : Option String
deriving Repr, DecidableEq

/-- The fxhash username post-processing: strip, replace commas and `/n`,
truncate to 36 characters, strip. -/
def fxProcess (s : String) : String :=
  pyStrip (pyTake (pyReplace (pyReplace (pyStrip s) "," " ") "/n" " ") 36)

/-- The elif-cascade choosing `tzprofiles_username` from the first non-null
field of the tzprofile record. -/
def tzprofileName (p : TzProfile) : Option String :=
  match p.«alias» with
  | some a => some (pyStrip a)
  | none =>
    match p.twitter with
    | some t => some (pyStrip t)
    | none =>
      match p.discord with
      | some d => some (pyStrip d)
      | none =>
        match p.github with
        | some g => some (pyStrip g)
        | none =>
          match p.domain_name with
          | some d => some (pyStrip d)
          | none =>
            match p.ethereum with
            | some e => some (pyStrip e)
            | none => none

/-- The `fxhash_usernames` block of `set_profiles_information`: process the
name, store it, and use it as the username when non-empty. -/
def fxhashBlock (u : TeiaUser) : Option String → TeiaUser
  | none => u
  | some fx =>
    let fxname := fxProcess fx
    let u := { u with fxhash_username := some fxname }
    if fxname.length > 0 then { u with username := some fxname } else u

/-- The body of the `tezos_domains_owners` loop: record the domain, use it as
the username only when no username has been set yet, and pick up an optional
twitter handle. -/
def domainStep (u : TeiaUser) (d : DomainRecord) : TeiaUser :=
  if u.address = d.address then
    let u := { u with tezos_domains := u.tezos_domains ++ [d.domain] }
    let u := if u.username = none then { u with username := some d.domain }
      else u
    match d.twitter_handle with
    | some th => if u.twitter = none then { u with twitter := some th } else u
    | none => u
  else u

/-- The `tezos_domains_owners` block of `set_profiles_information`. -/
def domainsBlock (u : TeiaUser) : Option (List DomainRecord) → TeiaUser
  | none => u
  | some ds => ds.foldl domainStep u

/-- The `tzkt_metadata` block of `set_profiles_information` (`none` models an
empty metadata dict, for which the block is skipped). -/
def tzktBlock (u : TeiaUser) : Option TzktMeta → TeiaUser
  | none => u
  | some m =>
    let u := { u with tzkt_username := some (pyStrip m.«alias») }
    let u := if (pyStrip m.«alias»).length > 0 then
        { u with username := some (pyStrip m.«alias») } else u
    let u := match m.twitter with
      | some t => { u with twitter := some (splitHead t '?') }
      | none => u
    let u := match m.discord with
      | some d =>
        { u with discord := some (pyStrip (pyReplace (pyReplace d "\"" "") "," " ")) }
      | none => u
    { u with verified := u.verified || m.twitter.isSome || m.discord.isSome ||
        m.github.isSome || m.gitlab.isSome || m.facebook.isSome ||
        m.reddit.isSome || m.instagram.isSome }

/-- The `tzprofiles` block of `set_profiles_information`. -/
def tzprofilesBlock (u : TeiaUser) : Option TzProfile → TeiaUser
  | none => u
  | some p =>
    let u := match tzprofileName p with
      | some n => { u with tzprofiles_username := some n }
      | none => u
    let u := match u.tzprofiles_username with
      | some n => if n.length > 0 then { u with username := some n } else u
      | none => u
    let u := match p.twitter with
      | some t => { u with twitter := some t }
      | none => u
    let u := match p.discord with
      | some d =>
        { u with discord := some (pyStrip (pyReplace (pyReplace d "\"" "") "," " ")) }
      | none => u
    { u with verified := u.verified || p.twitter.isSome || p.discord.isSome ||
        p.github.isSome || p.domain_name.isSome || p.ethereum.isSome }

/-- The `registries_bigmap` (H=N) block of `set_profiles_information`. -/
def registriesBlock (u : TeiaUser) : Option String → TeiaUser
  | none => u
  | some reg =>
    let u := { u with hen_username := some (pyStrip reg) }
    if (pyStrip reg).length > 0 then { u with username := some (pyStrip reg) }
    else u

/-- `TeiaUser.set_profiles_information`, with each identity-source dictionary
already restricted to this user's address (the method only ever indexes them
by `self.address`): `registry_user` is `registries_bigmap[address]["user"]`
when the address is registered, and the blocks run in source order (fxhash,
tezos domains, tzkt, tzprofiles, H=N registries). -/
def TeiaUser.set_profiles_information (u : TeiaUser)
    (registry_user : Option String) (tzprofile : Option TzProfile)
    (tzkt_metadata : Option TzktMeta) (tezos_domains : Option (List DomainRecord))
    (fxhash_username : Option String) : TeiaUser :=
  registriesBlock
    (tzprofilesBlock
      (tzktBlock (domainsBlock (fxhashBlock u fxhash_username) tezos_domains)
        tzkt_metadata)
      tzprofile)
    registry_user

/-- `TeiaUser.compress_connections`: both connection mappings re-keyed by the
target profiles' integer ids (counts unchanged). A peer address without a
profile is a Python `KeyError`, modelled by `Except.error`; nothing is
auto-created. -/
def compressMap (users : List (String × TeiaUser))
    (conns : List (String × Nat)) : Except String (List (Nat × Nat)) :=
  match conns with
  | [] => .ok []
  | (addr, c) :: rest =>
    match users.lookup addr with
    | none => .error ("KeyError: " ++ addr)
    | some target =>
      match compressMap users rest with
      | .error e => .error e
      | .ok rest' => .ok ((target.id, c) :: rest')

/-- The compressed `(artist_connections, collector_connections)` pair computed
by `TeiaUser.compress_connections` (the Python code stores them back in place;
the keys change type from address to id, so they are returned here). -/
def TeiaUser.compress_connections (u : TeiaUser)
    (users : List (String × TeiaUser)) :
    Except String (List (Nat × Nat) × List (Nat × Nat)) :=
  match compressMap users u.artist_connections with
  | .error e => .error e
  | .ok a =>
    match compressMap users u.collector_connections with
    | .error e => .error e
    | .ok c => .ok (a, c)

/-! ## `TeiaUsers` registry -/

/-- The `TeiaUsers` class: the `address → TeiaUser` mapping in insertion
order (the auxiliary `id_to_address` index is derivable and omitted). -/
structure TeiaUsers where
  users : List (String × TeiaUser)
deriving Repr, DecidableEq

/-- The "add a new user if the address is new" block: create-if-absent with
`id = len(self.users)`. -/
def addUserIfNew (r : TeiaUsers) (address : String) : TeiaUsers :=
  match r.users.lookup address with
  | some _ => r
  | none => ⟨r.users ++ [(address, TeiaUser.new address r.users.length)]⟩

/-- In-place update of one profile. -/
def TeiaUsers.updateUser (r : TeiaUsers) (address : String)
    (f : TeiaUser → TeiaUser) : TeiaUsers :=
  ⟨r.users.map (fun p => if p.1 = address then (p.1, f p.2) else p)⟩

/-- `TeiaUsers.add_mint_transactions`: zip the mint and mint_OBJKT batches,
create the minter profile if needed, delegate to `add_mint_transaction`. -/
def TeiaUsers.add_mint_transactions (r : TeiaUsers)
    (mint_transactions : List MintTx)
    (mint_objkt_transactions : List OriginTx) : TeiaUsers :=
  (mint_transactions.zip mint_objkt_transactions).foldl
    (fun r p =>
      let r := addUserIfNew r p.2.sender
      r.updateUser p.2.sender (fun u => u.add_mint_transaction p.1)) r

/-- The unique creator/seller/collector addresses of a collect transaction
(Python iterates a `set` in unspecified order; first-occurrence order is fixed
here, and every property proved below is order-independent). -/
def uniqueAddresses (l : List String) : List String :=
  l.foldl (fun acc a => if a ∈ acc then acc else acc ++ [a]) []

/-- Helper for `TeiaUsers.updateUserE`: update the entry for `address` by a
fallible method, keeping the other entries. -/
def updateUsersListE (address : String) (f : TeiaUser → Except String TeiaUser) :
    List (String × TeiaUser) → Except String (List (String × TeiaUser))
  | [] => .ok []
  | p :: rest =>
    match (if p.1 = address then (f p.2).map (fun u => (p.1, u)) else .ok p) with
    | .error e => .error e
    | .ok q =>
      match updateUsersListE address f rest with
      | .error e => .error e
      | .ok qs => .ok (q :: qs)

/-- In-place update of one profile by a fallible method. -/
def TeiaUsers.updateUserE (r : TeiaUsers) (address : String)
    (f : TeiaUser → Except String TeiaUser) : Except String TeiaUsers :=
  match updateUsersListE address f r.users with
  | .error e => .error e
  | .ok users => .ok ⟨users⟩

/-- The inner loop of `add_collect_transactions`: create each involved address
if new, then apply the shared collect event to its profile. -/
def applyCollectToAddresses (r : TeiaUsers) (addresses : List String)
    (tx : CollectTx) (swaps : List (Nat × SwapInfo))
    (royalties : List (Nat × RoyaltyInfo)) : Except String TeiaUsers :=
  match addresses with
  | [] => .ok r
  | a :: rest =>
    match (addUserIfNew r a).updateUserE a
        (fun u => u.add_collect_transaction tx swaps royalties) with
    | .error e => .error e
    | .ok r' => applyCollectToAddresses r' rest tx swaps royalties

/-- `TeiaUsers.add_collect_transactions`: for each transaction the swap and
royalty lookups run first; a missing key aborts the batch with the registry
exactly as left by the preceding transactions (the failing transaction has
mutated nothing). On success all distinct involved addresses get profiles and
the shared event is applied to each. -/
def TeiaUsers.add_collect_transactions (r : TeiaUsers)
    (transactions : List CollectTx) (swaps : List (Nat × SwapInfo))
    (royalties : List (Nat × RoyaltyInfo)) : TeiaUsers × Option String :=
  match transactions with
  | [] => (r, none)
  | tx :: rest =>
    match swaps.lookup tx.param.swapId with
    | none => (r, some "KeyError: swap_id")
    | some swap =>
      match royalties.lookup swap.objkt_id with
      | none => (r, some "KeyError: objkt_id")
      | some roy =>
        let addresses := uniqueAddresses [roy.issuer, swap.issuer, tx.sender]
        match applyCollectToAddresses r addresses tx swaps royalties with
        | .error e => (r, some e)
        | .ok r' => r'.add_collect_transactions rest swaps royalties

/-- `TeiaUsers.add_swap_transactions` -/
def TeiaUsers.add_swap_transactions (r : TeiaUsers)
    (transactions : List SwapTx) : TeiaUsers :=
  transactions.foldl
    (fun r tx =>
      let r := addUserIfNew r tx.sender
      r.updateUser tx.sender (fun u => u.add_swap_transaction tx)) r

/-- `TeiaUsers.select`: build a fresh mapping, let each filter block add the
matching users, return a new `TeiaUsers` instance. -/
def selectUsers (users : List (String × TeiaUser)) (filter_selection : String) :
    List (String × TeiaUser) :=
  let s : List (String × TeiaUser) := []
  let s := if filter_selection = "contributors" then
    s ++ users.filter (fun p => decide (p.2.contribution_level > 0)) else s
  let s := if filter_selection = "artists" then
    s ++ users.filter (fun p => decide (p.2.type = some "artist")) else s
  let s := if filter_selection = "collectors" then
    s ++ users.filter (fun p => decide (p.2.collected_objkts.length > 0)) else s
  let s := if filter_selection = "patrons" then
    s ++ users.filter (fun p => decide (p.2.type = some "patron")) else s
  let s := if filter_selection = "swappers" then
    s ++ users.filter (fun p => decide (p.2.type = some "swapper")) else s
  let s := if filter_selection = "hdao_owners" then
    s ++ users.filter (fun p => decide (p.2.type = some "hdao_owner")) else s
  let s := if filter_selection = "not_hdao_owners" then
    s ++ users.filter (fun p => decide (p.2.type ≠ some "hdao_owner")) else s
  let s := if filter_selection = "restricted" then
    s ++ users.filter (fun p => p.2.restricted) else s
  let s := if filter_selection = "not_restricted" then
    s ++ users.filter (fun p => !p.2.restricted) else s
  let s := if filter_selection = "wash_traders" then
    s ++ users.filter (fun p => p.2.wash_trader) else s
  let s := if filter_selection = "not_wash_traders" then
    s ++ users.filter (fun p => !p.2.wash_trader) else s
  let s := if filter_selection = "collaborations" then
    s ++ users.filter (fun p => decide (p.2.type = some "collaboration")) else s
  let s := if filter_selection = "contract" then
    s ++ users.filter (fun p => pyStartsWith p.1 "KT") else s
  let s := if filter_selection = "not_contract" then
    s ++ users.filter (fun p => pyStartsWith p.1 "tz") else s
  s

/-- `TeiaUsers.select` returns a new registry instance. -/
def TeiaUsers.select (r : TeiaUsers) (filter_selection : String) : TeiaUsers :=
  ⟨selectUsers r.users filter_selection⟩

/-! ## Event sequences over one profile -/

/-- A mint, collect or swap event applied to a single profile. -/
inductive MarketEvent where
  | mint (tx : MintTx)
  | collect (tx : CollectTx)
  | swap (tx : SwapTx)
deriving Repr, DecidableEq

/-- Apply one event to a profile (a collect may raise a lookup `KeyError`). -/
def applyEvent (swaps : List (Nat × SwapInfo))
    (royalties : List (Nat × RoyaltyInfo)) (u : TeiaUser) :
    MarketEvent → Except String TeiaUser
  | .mint tx => .ok (u.add_mint_transaction tx)
  | .collect tx => u.add_collect_transaction tx swaps royalties
  | .swap tx => .ok (u.add_swap_transaction tx)

/-- Apply a sequence of events to a profile, aborting at the first error. -/
def applyEvents (swaps : List (Nat × SwapInfo))
    (royalties : List (Nat × RoyaltyInfo)) (events : List MarketEvent)
    (u : TeiaUser) : Except String TeiaUser :=
  match events with
  | [] => .ok u
  | e :: rest =>
    match applyEvent swaps royalties u e with
    | .error s => .error s
    | .ok u' => applyEvents swaps royalties rest u'

/-! ## Specification-side definitions used to state amended claims -/

/-- A name only counts in the username cascade when non-empty. -/
def nonEmptyName : Option String → Option String
  | some s => if s.length > 0 then some s else none
  | none => none

/-- Priority choice: a (higher-precedence) candidate name overrides the
fallback exactly when present. -/
def orName (hi lo : Option String) : Option String :=
  match hi with
  | some n => some n
  | none => lo

/-- The first tezos domain owned by this address, if any. -/
def domainFind (address : String) : Option (List DomainRecord) → Option String
  | none => none
  | some ds => (ds.find? (fun d => address == d.address)).map (fun d => d.domain)

/-- The username priority cascade as the code actually implements it (the
amended form of the spec's cascade), highest precedence first: H=N registry
name, tzprofiles resolved name, tzkt alias, fxhash name; the tezos-domains
name never overrides — it only fills an unset username, so it is the lowest
source. -/
def usernameCascade (address : String) (registry_user : Option String)
    (tzprofile : Option TzProfile) (tzkt_metadata : Option TzktMeta)
    (tezos_domains : Option (List DomainRecord))
    (fxhash_username : Option String) : Option String :=
  orName (nonEmptyName (registry_user.map pyStrip))
    (orName (tzprofile.bind (fun p => nonEmptyName (tzprofileName p)))
      (orName (nonEmptyName (tzkt_metadata.map (fun m => pyStrip m.«alias»)))
        (orName (nonEmptyName (fxhash_username.map fxProcess))
          (domainFind address tezos_domains))))

/-- The id of the profile registered for an address (0 when absent; only used
under the hypothesis that the address has a profile). -/
def lookupId (users : List (String × TeiaUser)) (address : String) : Nat :=
  match users.lookup address with
  | some target => target.id
  | none => 0

/-! ## Concrete inputs for counterexamples and witnesses -/

/-- The end-to-end scenario mint by `tz1X` of token 1. -/
def scenarioMint : MintTx := ⟨1, "2021-01-01T00:00:00Z"⟩

/-- The scenario collect by `tz1Y` of 100_000_000 mutez against swap 2. -/
def scenarioCollect : CollectTx :=
  ⟨.record 2, 100000000, "tz1Y", teiaMarketplaceAddress, "2021-01-02T00:00:00Z"⟩

/-- The scenario swaps bigmap: swap 2 issued by `tz1X` for token 1. -/
def scenarioSwaps : List (Nat × SwapInfo) := [(2, ⟨"tz1X", 1⟩)]

/-- The scenario royalties bigmap: token 1 has issuer `tz1X` and 100 ‱. -/
def scenarioRoyalties : List (Nat × RoyaltyInfo) := [(1, ⟨"tz1X", 100⟩)]

/-- The scenario registry: empty registry, then the mint, then the collect. -/
def scenarioRegistry : TeiaUsers × Option String :=
  ((TeiaUsers.mk []).add_mint_transactions [scenarioMint]
    [⟨"tz1X"⟩]).add_collect_transactions [scenarioCollect] scenarioSwaps
    scenarioRoyalties

/-- A collaboration contract profile that minted token 5 and then sold (as
the seller, not the creator) somebody else's token 9 for 100 tez: its total
earnings are all in the "other objkts" bucket. -/
def c4Collab : Except String TeiaUser :=
  ((TeiaUser.new "KT1collab" 0).add_mint_transaction
    ⟨5, "2021-01-01T00:00:00Z"⟩).add_collect_transaction
    ⟨.scalar 7, 100000000, "tz1Buyer", teiaMarketplaceAddress,
      "2021-01-02T00:00:00Z"⟩
    [(7, ⟨"KT1collab", 9⟩)] [(9, ⟨"tz1Other", 100⟩)]

/-- A core participant of `KT1collab` who signed token 5, after the
collaboration merge: it receives a full share of the collaboration's total
earnings but a zero collaborations-bucket share. -/
def c4User : Except String TeiaUser :=
  c4Collab.bind (fun c =>
    (TeiaUser.new "tz1U" 1).add_artists_collaborations
      [("KT1collab", ⟨⟨["tz1U"], [("tz1U", 1)], 1⟩⟩)] [("tz1U", [5])]
      [("KT1collab", c)])

/-- A profile whose only event is a collect of its own token by `tz1Gone`, an
address that never triggers any other registry event. -/
def c9User : Except String TeiaUser :=
  (TeiaUser.new "tz1A" 0).add_collect_transaction
    ⟨.scalar 1, 1000000, "tz1Gone", teiaMarketplaceAddress,
      "2021-01-02T00:00:00Z"⟩
    [(1, ⟨"tz1Seller", 3⟩)] [(3, ⟨"tz1A", 100⟩)]

/-- A non-restricted contributor row with every metric equal to 1 and no
token-balance carryover. -/
def c1User : DistUser := ⟨false, false, false, 1, 1, 1, 1, 1, 1, 1, 1, 1, false, 0⟩

/-- A non-restricted row that is active (14 active days) but voted in no
poll: the voting component's raw column sums to zero. -/
def c8User : DistUser := ⟨false, false, false, 0, 14, 1, 0, 1, 1, 1, 1, 1, false, 0⟩

/-! # Theorems -/

/-- C6: in the scaling-factor decision table, a contributor
(`contribution_level > 0`) always gets scaling factor 3 — even when the
activity floor (`active_days < 14` and `teia_votes == 0` and
`money_spent < 1000`) holds — because the contributor bump is assigned after
the floor zeroing; a non-contributor meeting the floor gets scaling factor 0. -/
theorem contributor_scaling_overrides_floor (u : DistUser) :
    (u.contribution_level > 0 → scalingFactor u = 3) ∧
    (u.active_days < 14 ∧ u.teia_votes = 0 ∧ u.money_spent < 1000 ∧
      u.contribution_level = 0 → scalingFactor u = 0) := by
  constructor
  · intro h
    simp [scalingFactor, h]
  · rintro ⟨h1, h2, h3, h4⟩
    simp [scalingFactor, h1, h2, h3, h4]

/-- Witness for C6: a contributor below the activity floor still gets factor
3, and the same row without the contribution level gets factor 0. -/
theorem contributor_scaling_overrides_floor_witness :
    scalingFactor ⟨false, false, false, 1, 1, 1, 0, 1, 1, 1, 1, 1, false, 0⟩ = 3 ∧
    scalingFactor ⟨false, false, false, 0, 1, 1, 0, 1, 1, 1, 1, 1, false, 0⟩ = 0 :=
  ⟨(contributor_scaling_overrides_floor _).1 (by decide),
   (contributor_scaling_overrides_floor _).2
     ⟨by decide, rfl, by norm_num, rfl⟩⟩

/-- C10: for every filter string outside the supported vocabulary, `select`
returns a new registry with no users (the original, being a distinct
instance, is untouched): an unknown filter behaves as an always-false
predicate rather than raising. -/
theorem select_unknown_filter_is_empty (r : TeiaUsers) (f : String)
    (h : f ∉ (["contributors", "artists", "collectors", "patrons", "swappers",
      "hdao_owners", "not_hdao_owners", "restricted", "not_restricted",
      "wash_traders", "not_wash_traders", "collaborations", "contract",
      "not_contract"] : List String)) :
    (r.select f).users = [] := by
  simp only [List.mem_cons, List.not_mem_nil, or_false, not_or] at h
  obtain ⟨h1, h2, h3, h4, h5, h6, h7, h8, h9, h10, h11, h12, h13, h14⟩ := h
  simp [TeiaUsers.select, selectUsers, h1, h2, h3, h4, h5, h6, h7, h8, h9,
    h10, h11, h12, h13, h14]

/-- Witness for C10: a misspelled filter on a one-user registry selects
nobody. -/
theorem select_unknown_filter_is_empty_witness :
    (TeiaUsers.select ⟨[("tz1A", TeiaUser.new "tz1A" 0)]⟩ "artsits").users = [] :=
  select_unknown_filter_is_empty ⟨[("tz1A", TeiaUser.new "tz1A" 0)]⟩ "artsits"
    (by decide)

/-- C5: a collect transaction whose swap id is missing from the swaps bigmap,
or whose resolved OBJKT id is missing from the royalties bigmap, makes
`add_collect_transaction` (and the registry-level `add_collect_transactions`)
fail with a lookup error instead of skipping or defaulting; since all lookups
precede every mutation, the failing call leaves the profile and the registry
unchanged (the registry pair returns the untouched `r`). -/
theorem collect_missing_lookup_is_fatal (u : TeiaUser) (tx : CollectTx)
    (swaps : List (Nat × SwapInfo)) (royalties : List (Nat × RoyaltyInfo))
    (r : TeiaUsers)
    (h : swaps.lookup tx.param.swapId = none ∨
      ∃ s, swaps.lookup tx.param.swapId = some s ∧
        royalties.lookup s.objkt_id = none) :
    (∃ e, u.add_collect_transaction tx swaps royalties = .error e) ∧
    (∃ e, r.add_collect_transactions [tx] swaps royalties = (r, some e)) := by
  rcases h with h | ⟨s, hs, hr⟩
  · exact ⟨⟨"KeyError: swap_id", by simp [TeiaUser.add_collect_transaction, h]⟩,
      ⟨"KeyError: swap_id", by simp [TeiaUsers.add_collect_transactions, h]⟩⟩
  · exact ⟨⟨"KeyError: objkt_id",
      by simp [TeiaUser.add_collect_transaction, hs, hr]⟩,
      ⟨"KeyError: objkt_id",
      by simp [TeiaUsers.add_collect_transactions, hs, hr]⟩⟩

/-- Witness for C5: a collect against an empty swaps bigmap fails with a
lookup error at both the profile and the registry level. -/
theorem collect_missing_lookup_is_fatal_witness :
    (∃ e, (TeiaUser.new "tz1A" 0).add_collect_transaction
      ⟨.scalar 1, 0, "tz1B", "KT1M", "t"⟩ [] [] = .error e) ∧
    (∃ e, (TeiaUsers.mk []).add_collect_transactions
      [⟨.scalar 1, 0, "tz1B", "KT1M", "t"⟩] [] [] = (⟨[]⟩, some e)) :=
  collect_missing_lookup_is_fatal (TeiaUser.new "tz1A" 0)
    ⟨.scalar 1, 0, "tz1B", "KT1M", "t"⟩ [] [] ⟨[]⟩ (Or.inl rfl)

/-! Projection lemmas for the type-promotion updates. -/

@[simp] theorem promoteSwapper_address (u : TeiaUser) :
    (promoteSwapper u).address = u.address := by
  unfold promoteSwapper
  split <;> rfl

@[simp] theorem promoteSwapper_earned (u : TeiaUser) :
    (promoteSwapper u).total_money_earned = u.total_money_earned := by
  unfold promoteSwapper
  split <;> rfl

@[simp] theorem promoteSwapper_earned_own (u : TeiaUser) :
    (promoteSwapper u).total_money_earned_own_objkts =
      u.total_money_earned_own_objkts := by
  unfold promoteSwapper
  split <;> rfl

@[simp] theorem promoteSwapper_earned_other (u : TeiaUser) :
    (promoteSwapper u).total_money_earned_other_objkts =
      u.total_money_earned_other_objkts := by
  unfold promoteSwapper
  split <;> rfl

@[simp] theorem promoteSwapper_earned_collab (u : TeiaUser) :
    (promoteSwapper u).total_money_earned_collaborations_objkts =
      u.total_money_earned_collaborations_objkts := by
  unfold promoteSwapper
  split <;> rfl

@[simp] theorem promotePatron_address (u : TeiaUser) :
    (promotePatron u).address = u.address := by
  unfold promotePatron
  split <;> rfl

@[simp] theorem promotePatron_earned (u : TeiaUser) :
    (promotePatron u).total_money_earned = u.total_money_earned := by
  unfold promotePatron
  split <;> rfl

@[simp] theorem promotePatron_earned_own (u : TeiaUser) :
    (promotePatron u).total_money_earned_own_objkts =
      u.total_money_earned_own_objkts := by
  unfold promotePatron
  split <;> rfl

@[simp] theorem promotePatron_earned_other (u : TeiaUser) :
    (promotePatron u).total_money_earned_other_objkts =
      u.total_money_earned_other_objkts := by
  unfold promotePatron
  split <;> rfl

@[simp] theorem promotePatron_earned_collab (u : TeiaUser) :
    (promotePatron u).total_money_earned_collaborations_objkts =
      u.total_money_earned_collaborations_objkts := by
  unfold promotePatron
  split <;> rfl

theorem promoteSwapper_keeps_artist (u : TeiaUser)
    (h : u.type = some "artist") : (promoteSwapper u).type = some "artist" := by
  unfold promoteSwapper
  split <;> simp_all

theorem promotePatron_keeps_artist (u : TeiaUser)
    (h : u.type = some "artist") : (promotePatron u).type = some "artist" := by
  unfold promotePatron
  split <;> simp_all

/-! Preservation lemmas for the classification invariant (C3). -/

theorem collectAsCreator_keeps_artist (u : TeiaUser)
    (ca co : String) (p q : ℚ) (h : u.type = some "artist") :
    (collectAsCreator u ca co p q).type = some "artist" := by
  unfold collectAsCreator
  split <;> simp [h]

theorem collectAsSeller_keeps_artist (u : TeiaUser)
    (ca sa : String) (p q : ℚ) (h : u.type = some "artist") :
    (collectAsSeller u ca sa p q).type = some "artist" := by
  unfold collectAsSeller
  split
  · have hp := promoteSwapper_keeps_artist u h
    dsimp only
    split <;> simp [hp]
  · exact h

theorem collectAsCollector_keeps_artist (u : TeiaUser)
    (ca co ma : String) (oid : Nat) (ts : String) (p : ℚ)
    (h : u.type = some "artist") :
    (collectAsCollector u ca co ma oid ts p).type = some "artist" := by
  unfold collectAsCollector
  split
  · have hp := promotePatron_keeps_artist u h
    dsimp only
    split <;> simp [hp]
  · exact h

theorem add_swap_keeps_artist (u : TeiaUser) (tx : SwapTx)
    (h : u.type = some "artist") :
    (u.add_swap_transaction tx).type = some "artist" := by
  unfold TeiaUser.add_swap_transaction
  have hp := promoteSwapper_keeps_artist u h
  dsimp only
  split <;> simp [hp]

theorem applyEvent_keeps_artist (swaps : List (Nat × SwapInfo))
    (royalties : List (Nat × RoyaltyInfo)) (u u' : TeiaUser) (e : MarketEvent)
    (h : u.type = some "artist")
    (he : applyEvent swaps royalties u e = .ok u') :
    u'.type = some "artist" := by
  cases e with
  | mint tx =>
    simp only [applyEvent, Except.ok.injEq] at he
    subst he
    simp [TeiaUser.add_mint_transaction, TeiaUser.applyMint]
  | collect tx =>
    simp only [applyEvent, TeiaUser.add_collect_transaction] at he
    rcases hs : swaps.lookup tx.param.swapId with _ | s
    · simp [hs] at he
    · rcases hr : royalties.lookup s.objkt_id with _ | roy
      · simp [hs, hr] at he
      · simp only [hs, hr, Except.ok.injEq] at he
        subst he
        exact collectAsCollector_keeps_artist _ _ _ _ _ _ _
          (collectAsSeller_keeps_artist _ _ _ _ _
            (collectAsCreator_keeps_artist _ _ _ _ _ h))
  | swap tx =>
    simp only [applyEvent, Except.ok.injEq] at he
    subst he
    exact add_swap_keeps_artist _ _ h

theorem applyEvents_keeps_artist (swaps : List (Nat × SwapInfo))
    (royalties : List (Nat × RoyaltyInfo)) (events : List MarketEvent)
    (u u' : TeiaUser) (h : u.type = some "artist")
    (he : applyEvents swaps royalties events u = .ok u') :
    u'.type = some "artist" := by
  induction events generalizing u with
  | nil =>
    simp only [applyEvents, Except.ok.injEq] at he
    subst he
    exact h
  | cons e rest ih =>
    simp only [applyEvents] at he
    rcases h1 : applyEvent swaps royalties u e with _ | v
    · simp [h1] at he
    · simp only [h1] at he
      exact ih v (applyEvent_keeps_artist _ _ _ _ _ h h1) he

theorem applyEvents_append (swaps : List (Nat × SwapInfo))
    (royalties : List (Nat × RoyaltyInfo)) (l1 l2 : List MarketEvent)
    (u : TeiaUser) :
    applyEvents swaps royalties (l1 ++ l2) u =
      (match applyEvents swaps royalties l1 u with
        | .error e => .error e
        | .ok v => applyEvents swaps royalties l2 v) := by
  induction l1 generalizing u with
  | nil => simp [applyEvents]
  | cons e rest ih =>
    simp only [List.cons_append, applyEvents]
    rcases h1 : applyEvent swaps royalties u e with _ | v <;> simp [ih]

/-- C3: for every sequence of mint/collect/swap events applied to a fresh
profile, once a mint event has been applied the profile type is "artist"
after all subsequent collect/swap (and mint) events, whatever their order:
later events never downgrade an artist. -/
theorem artist_never_downgraded (swaps : List (Nat × SwapInfo))
    (royalties : List (Nat × RoyaltyInfo)) (pre post : List MarketEvent)
    (mtx : MintTx) (a : String) (i : Nat) (u : TeiaUser)
    (h : applyEvents swaps royalties (pre ++ MarketEvent.mint mtx :: post)
      (TeiaUser.new a i) = .ok u) :
    u.type = some "artist" := by
  rw [applyEvents_append] at h
  rcases h1 : applyEvents swaps royalties pre (TeiaUser.new a i) with _ | v
  · simp [h1] at h
  · simp only [h1, applyEvents] at h
    have h2 : (applyEvent swaps royalties v (MarketEvent.mint mtx)) =
        .ok (v.add_mint_transaction mtx) := rfl
    rw [h2] at h
    exact applyEvents_keeps_artist _ _ _ _ _
      (by simp [TeiaUser.add_mint_transaction, TeiaUser.applyMint]) h

/-- Witness for C3: a mint followed by a swap on the same fresh profile
leaves it an artist. -/
theorem artist_never_downgraded_witness :
    (((TeiaUser.new "tz1A" 0).add_mint_transaction
      ⟨1, "2021-01-01T00:00:00Z"⟩).add_swap_transaction
      ⟨1, "tz1A", "KT1M", "2021-01-02T00:00:00Z"⟩).type = some "artist" :=
  artist_never_downgraded [] [] [] [.swap ⟨1, "tz1A", "KT1M", "2021-01-02T00:00:00Z"⟩]
    ⟨1, "2021-01-01T00:00:00Z"⟩ "tz1A" 0 _ rfl

/-! Earnings-decomposition lemmas (C4). -/

/-- The decomposition of the running earnings total into its three buckets. -/
def moneySplit (u : TeiaUser) : Prop :=
  u.total_money_earned = u.total_money_earned_own_objkts +
    u.total_money_earned_other_objkts +
    u.total_money_earned_collaborations_objkts

theorem collectAsCreator_moneySplit (u : TeiaUser)
    (ca co : String) (p q : ℚ) (h : moneySplit u) :
    moneySplit (collectAsCreator u ca co p q) := by
  unfold moneySplit at h ⊢
  unfold collectAsCreator
  split_ifs
  · simp
    linarith
  · exact h

theorem collectAsSeller_moneySplit (u : TeiaUser)
    (ca sa : String) (p q : ℚ) (h : moneySplit u) :
    moneySplit (collectAsSeller u ca sa p q) := by
  unfold moneySplit at h ⊢
  unfold collectAsSeller
  split
  · dsimp only
    split <;> simp <;> linarith
  · exact h

theorem collectAsCollector_moneySplit (u : TeiaUser)
    (ca co ma : String) (oid : Nat) (ts : String) (p : ℚ)
    (h : moneySplit u) :
    moneySplit (collectAsCollector u ca co ma oid ts p) := by
  unfold moneySplit at h ⊢
  unfold collectAsCollector
  split
  · dsimp only
    split <;> simp <;> linarith
  · exact h

theorem add_swap_moneySplit (u : TeiaUser) (tx : SwapTx)
    (h : moneySplit u) : moneySplit (u.add_swap_transaction tx) := by
  unfold moneySplit at h ⊢
  unfold TeiaUser.add_swap_transaction
  dsimp only
  split <;> simp <;> linarith

theorem applyMint_moneySplit (u : TeiaUser) (oid : Nat) (ts : String)
    (h : moneySplit u) : moneySplit (u.applyMint oid ts) := by
  unfold moneySplit at h ⊢
  unfold TeiaUser.applyMint
  simpa using h

theorem applyEvent_moneySplit (swaps : List (Nat × SwapInfo))
    (royalties : List (Nat × RoyaltyInfo)) (u u' : TeiaUser) (e : MarketEvent)
    (h : moneySplit u)
    (he : applyEvent swaps royalties u e = .ok u') : moneySplit u' := by
  cases e with
  | mint tx =>
    simp only [applyEvent, Except.ok.injEq] at he
    subst he
    exact applyMint_moneySplit _ _ _ h
  | collect tx =>
    simp only [applyEvent, TeiaUser.add_collect_transaction] at he
    rcases hs : swaps.lookup tx.param.swapId with _ | s
    · simp [hs] at he
    · rcases hr : royalties.lookup s.objkt_id with _ | roy
      · simp [hs, hr] at he
      · simp only [hs, hr, Except.ok.injEq] at he
        subst he
        exact collectAsCollector_moneySplit _ _ _ _ _ _ _
          (collectAsSeller_moneySplit _ _ _ _ _
            (collectAsCreator_moneySplit _ _ _ _ _ h))
  | swap tx =>
    simp only [applyEvent, Except.ok.injEq] at he
    subst he
    exact add_swap_moneySplit _ _ h

theorem applyEvents_moneySplit (swaps : List (Nat × SwapInfo))
    (royalties : List (Nat × RoyaltyInfo)) (events : List MarketEvent)
    (u u' : TeiaUser) (h : moneySplit u)
    (he : applyEvents swaps royalties events u = .ok u') : moneySplit u' := by
  induction events generalizing u with
  | nil =>
    simp only [applyEvents, Except.ok.injEq] at he
    subst he
    exact h
  | cons e rest ih =>
    simp only [applyEvents] at he
    rcases h1 : applyEvent swaps royalties u e with _ | v
    · simp [h1] at he
    · simp only [h1] at he
      exact ih v (applyEvent_moneySplit _ _ _ _ _ h h1) he

/-- C4 (amended): for every profile built from a fresh profile by any
sequence of mint/collect/swap ingestion operations, the earnings total equals
exactly the sum of the own-objkts, other-objkts and collaborations buckets.
The collaboration merge (`add_artists_collaborations`) can break the
decomposition — see the counterexample — because it adds a share of the
collaboration's *total* earnings to the profile total but only a share of the
collaboration's *own-objkts* earnings to the collaborations bucket. -/
theorem earnings_decomposition (swaps : List (Nat × SwapInfo))
    (royalties : List (Nat × RoyaltyInfo)) (events : List MarketEvent)
    (a : String) (i : Nat) (u : TeiaUser)
    (h : applyEvents swaps royalties events (TeiaUser.new a i) = .ok u) :
    u.total_money_earned = u.total_money_earned_own_objkts +
      u.total_money_earned_other_objkts +
      u.total_money_earned_collaborations_objkts :=
  applyEvents_moneySplit swaps royalties events _ u
    (by simp [moneySplit, TeiaUser.new]) h

/-- Witness for C4: one mint on a fresh profile keeps the (zero) earnings
decomposition exact. -/
theorem earnings_decomposition_witness :
    ((TeiaUser.new "tz1A" 0).add_mint_transaction
      ⟨1, "2021-01-01T00:00:00Z"⟩).total_money_earned =
      ((TeiaUser.new "tz1A" 0).add_mint_transaction
        ⟨1, "2021-01-01T00:00:00Z"⟩).total_money_earned_own_objkts +
      ((TeiaUser.new "tz1A" 0).add_mint_transaction
        ⟨1, "2021-01-01T00:00:00Z"⟩).total_money_earned_other_objkts +
      ((TeiaUser.new "tz1A" 0).add_mint_transaction
        ⟨1, "2021-01-01T00:00:00Z"⟩).total_money_earned_collaborations_objkts :=
  earnings_decomposition [] [] [.mint ⟨1, "2021-01-01T00:00:00Z"⟩] "tz1A" 0 _ rfl

/-- Counterexample for C4 as stated: `c4User` is built only from the cited
ingestion operations (a mint and a collect building the collaboration
profile, then `add_artists_collaborations`), yet its earnings total is 87.5
while its three buckets sum to 0 — far outside the 1e-9 relative tolerance.
The merge adds `share * collab.total_money_earned` (here all earned from
reselling another artist's OBJKT) to the total but only
`share * collab.total_money_earned_own_objkts = 0` to the buckets. -/
theorem earnings_decomposition_counterexample :
    c4User.map (fun u => (u.total_money_earned,
      u.total_money_earned_own_objkts + u.total_money_earned_other_objkts +
        u.total_money_earned_collaborations_objkts)) =
      .ok (175/2, 0) ∧
    ¬(|(175/2 : ℚ) - 0| ≤ (1/1000000000) * |(175/2 : ℚ)|) := by
  constructor
  · simp [c4User, c4Collab, TeiaUser.add_mint_transaction, TeiaUser.applyMint,
      TeiaUser.add_collect_transaction, collectAsCreator, collectAsSeller,
      collectAsCollector, promoteSwapper, promotePatron, TeiaUser.new,
      incrConn, minActivity, maxActivity, minObjkt, maxObjkt,
      TeiaUser.add_artists_collaborations, addCollabStep, Except.bind,
      Except.map, List.lookup, teiaMarketplaceAddress, CollectParam.swapId]
      <;> norm_num
  · norm_num

/-- C2 (amended): in the end-to-end scenario (mint by X of token 1 with 100‱
royalties, collect by Y for 100 tez against X's swap), X ends an artist with
`total_money_earned_own_objkts = 97.5` (10.0 royalty + 87.5 seller margin
`100 * (1 - 0.10 - 0.025)`), Y ends a patron with 100.0 spent, and the two
profiles are connected with weight 1 in both directions. -/
theorem end_to_end_scenario :
    scenarioRegistry.2 = none ∧
    (scenarioRegistry.1.users.lookup "tz1X").map (fun x =>
      (x.type, x.total_money_earned_own_objkts, x.collector_connections)) =
      some (some "artist", 195/2, [("tz1Y", 1)]) ∧
    (scenarioRegistry.1.users.lookup "tz1Y").map (fun y =>
      (y.type, y.total_money_spent, y.artist_connections)) =
      some (some "patron", 100, [("tz1X", 1)]) := by
  refine ⟨?_, ?_, ?_⟩ <;>
  · simp [scenarioRegistry, scenarioMint, scenarioCollect, scenarioSwaps,
      scenarioRoyalties, TeiaUsers.add_mint_transactions,
      TeiaUsers.add_collect_transactions, addUserIfNew, TeiaUsers.updateUser,
      TeiaUsers.updateUserE, updateUsersListE, applyCollectToAddresses,
      uniqueAddresses, TeiaUser.add_mint_transaction, TeiaUser.applyMint,
      TeiaUser.add_collect_transaction, collectAsCreator, collectAsSeller,
      collectAsCollector, promoteSwapper, promotePatron, TeiaUser.new,
      incrConn, minActivity, maxActivity, minObjkt, maxObjkt,
      teiaMarketplaceAddress, CollectParam.swapId, List.lookup, strLt,
      charListLt, Except.map, Except.bind, Option.map] <;> norm_num

/-- Counterexample for C2 as stated: in the scenario, X's
`total_money_earned_own_objkts` is 97.5, not ≈ 107.5 — the claim's seller
margin is `100 * (1 - 0.10 - 0.025) = 87.5`, not 97.5. -/
theorem end_to_end_scenario_counterexample :
    (scenarioRegistry.1.users.lookup "tz1X").map (fun x =>
      x.total_money_earned_own_objkts) = some (195/2) ∧
    ¬(|(195/2 : ℚ) - 107.5| ≤ 107.5 * (1/1000000)) := by
  constructor
  · simp [scenarioRegistry, scenarioMint, scenarioCollect, scenarioSwaps,
      scenarioRoyalties, TeiaUsers.add_mint_transactions,
      TeiaUsers.add_collect_transactions, addUserIfNew, TeiaUsers.updateUser,
      TeiaUsers.updateUserE, updateUsersListE, applyCollectToAddresses,
      uniqueAddresses, TeiaUser.add_mint_transaction, TeiaUser.applyMint,
      TeiaUser.add_collect_transaction, collectAsCreator, collectAsSeller,
      collectAsCollector, promoteSwapper, promotePatron, TeiaUser.new,
      incrConn, minActivity, maxActivity, minObjkt, maxObjkt,
      teiaMarketplaceAddress, CollectParam.swapId, List.lookup, strLt,
      charListLt, Except.map, Except.bind, Option.map] <;> norm_num
  · norm_num

/-! Connection-compression lemmas (C9). -/

theorem compressMap_ok (users : List (String × TeiaUser))
    (conns : List (String × Nat))
    (h : ∀ p ∈ conns, (users.lookup p.1).isSome) :
    compressMap users conns =
      .ok (conns.map (fun p => (lookupId users p.1, p.2))) := by
  induction conns with
  | nil => rfl
  | cons p rest ih =>
    obtain ⟨a, c⟩ := p
    have hp := h (a, c) (List.mem_cons_self _ _)
    rcases hl : users.lookup a with _ | t
    · rw [hl] at hp
      simp at hp
    · simp only [compressMap, hl, List.map_cons]
      rw [ih (fun q hq => h q (List.mem_cons_of_mem _ hq))]
      simp [lookupId, hl]

/-- C9 (amended): when every peer address referenced by the profile's
connection maps has a profile, `compress_connections` replaces every address
key by the target profile's integer id, preserving the interaction counts.
When a peer has no profile the call fails with a `KeyError` — nothing is
auto-created (see the counterexample). -/
theorem compress_connections_ids (users : List (String × TeiaUser))
    (u : TeiaUser)
    (ha : ∀ p ∈ u.artist_connections, (users.lookup p.1).isSome)
    (hc : ∀ p ∈ u.collector_connections, (users.lookup p.1).isSome) :
    u.compress_connections users = .ok
      (u.artist_connections.map (fun p => (lookupId users p.1, p.2)),
       u.collector_connections.map (fun p => (lookupId users p.1, p.2))) := by
  unfold TeiaUser.compress_connections
  rw [compressMap_ok users _ ha, compressMap_ok users _ hc]

/-- Witness for C9: a two-user registry where each connection key is replaced
by the peer's id with its count kept. -/
theorem compress_connections_ids_witness :
    ({ TeiaUser.new "tz1A" 0 with
        artist_connections := [("tz1B", 2)]
        collector_connections := [("tz1B", 1)] } : TeiaUser).compress_connections
      [("tz1A", TeiaUser.new "tz1A" 0), ("tz1B", TeiaUser.new "tz1B" 1)] = .ok
      (([("tz1B", 2)] : List (String × Nat)).map (fun p =>
        (lookupId [("tz1A", TeiaUser.new "tz1A" 0), ("tz1B", TeiaUser.new "tz1B" 1)] p.1, p.2)),
       ([("tz1B", 1)] : List (String × Nat)).map (fun p =>
        (lookupId [("tz1A", TeiaUser.new "tz1A" 0), ("tz1B", TeiaUser.new "tz1B" 1)] p.1, p.2))) :=
  compress_connections_ids _ _ (by decide) (by decide)

/-! Username-cascade lemmas (C7). -/

theorem orName_none (x : Option String) : orName x none = x := by
  cases x <;> rfl

theorem orName_absorb (x : Option String) (y : String) (z : Option String) :
    orName (orName x (some y)) z = orName x (some y) := by
  cases x <;> rfl

theorem fxhashBlock_username (u : TeiaUser) (fx : Option String)
    (h : u.username = none) :
    (fxhashBlock u fx).username = nonEmptyName (fx.map fxProcess) := by
  cases fx with
  | none => simpa [fxhashBlock, nonEmptyName] using h
  | some s =>
    unfold fxhashBlock nonEmptyName
    dsimp only [Option.map_some]
    split_ifs <;> simp_all

theorem fxhashBlock_address (u : TeiaUser) (fx : Option String) :
    (fxhashBlock u fx).address = u.address := by
  cases fx with
  | none => rfl
  | some s =>
    unfold fxhashBlock
    dsimp only
    split_ifs <;> rfl

theorem fxhashBlock_tzprofiles_username (u : TeiaUser) (fx : Option String) :
    (fxhashBlock u fx).tzprofiles_username = u.tzprofiles_username := by
  cases fx with
  | none => rfl
  | some s =>
    unfold fxhashBlock
    dsimp only
    split_ifs <;> rfl

theorem domainStep_address (u : TeiaUser) (d : DomainRecord) :
    (domainStep u d).address = u.address := by
  unfold domainStep
  split
  · dsimp only
    cases d.twitter_handle <;> dsimp only <;> split_ifs <;> rfl
  · rfl

theorem domainStep_tzprofiles_username (u : TeiaUser) (d : DomainRecord) :
    (domainStep u d).tzprofiles_username = u.tzprofiles_username := by
  unfold domainStep
  split
  · dsimp only
    cases d.twitter_handle <;> dsimp only <;> split_ifs <;> rfl
  · rfl

theorem domainStep_nomatch (u : TeiaUser) (d : DomainRecord)
    (h : ¬u.address = d.address) : domainStep u d = u := by
  unfold domainStep
  rw [if_neg h]

theorem domainStep_username_match (u : TeiaUser) (d : DomainRecord)
    (h : u.address = d.address) :
    (domainStep u d).username = orName u.username (some d.domain) := by
  unfold domainStep orName
  rw [if_pos h]
  dsimp only
  cases hu : u.username with
  | none => cases d.twitter_handle <;> split_ifs <;> simp_all
  | some x => cases d.twitter_handle <;> split_ifs <;> simp_all

theorem domainsFold_username (ds : List DomainRecord) (u : TeiaUser) :
    (ds.foldl domainStep u).username =
      orName u.username
        ((ds.find? (fun d => u.address == d.address)).map (fun d => d.domain)) := by
  induction ds generalizing u with
  | nil => simp [orName_none]
  | cons d ds ih =>
    by_cases had : u.address = d.address
    · have hpred : (u.address == d.address) = true := beq_iff_eq.mpr had
      have hfind : List.find? (fun x => u.address == x.address) (d :: ds) =
          some d := List.find?_cons_of_pos ds hpred
      rw [List.foldl_cons, hfind, ih, domainStep_address,
        domainStep_username_match u d had]
      simp [orName_absorb]
    · have hfind : List.find? (fun x => u.address == x.address) (d :: ds) =
          List.find? (fun x => u.address == x.address) ds :=
        List.find?_cons_of_neg ds (by simpa using had)
      rw [List.foldl_cons, hfind, domainStep_nomatch u d had]
      exact ih u

theorem domainsBlock_username (u : TeiaUser) (doms : Option (List DomainRecord)) :
    (domainsBlock u doms).username =
      orName u.username (domainFind u.address doms) := by
  cases doms with
  | none => simp [domainsBlock, domainFind, orName_none]
  | some ds => exact domainsFold_username ds u

theorem domainsBlock_address (u : TeiaUser) (doms : Option (List DomainRecord)) :
    (domainsBlock u doms).address = u.address := by
  cases doms with
  | none => rfl
  | some ds =>
    induction ds generalizing u with
    | nil => rfl
    | cons d ds ih =>
      show ((d :: ds).foldl domainStep u).address = u.address
      rw [List.foldl_cons]
      have := ih (domainStep u d)
      simpa [domainsBlock, domainStep_address] using this

theorem domainsBlock_tzprofiles_username (u : TeiaUser)
    (doms : Option (List DomainRecord)) :
    (domainsBlock u doms).tzprofiles_username = u.tzprofiles_username := by
  cases doms with
  | none => rfl
  | some ds =>
    induction ds generalizing u with
    | nil => rfl
    | cons d ds ih =>
      show ((d :: ds).foldl domainStep u).tzprofiles_username =
        u.tzprofiles_username
      rw [List.foldl_cons]
      have := ih (domainStep u d)
      simpa [domainsBlock, domainStep_tzprofiles_username] using this

theorem tzktBlock_username (u : TeiaUser) (tzkt : Option TzktMeta) :
    (tzktBlock u tzkt).username =
      orName (nonEmptyName (tzkt.map (fun m => pyStrip m.«alias»)))
        u.username := by
  cases tzkt with
  | none => simp [tzktBlock, nonEmptyName, orName]
  | some m =>
    unfold tzktBlock nonEmptyName orName
    dsimp only [Option.map_some]
    cases m.twitter <;> cases m.discord <;> split_ifs <;> simp_all

theorem tzktBlock_tzprofiles_username (u : TeiaUser) (tzkt : Option TzktMeta) :
    (tzktBlock u tzkt).tzprofiles_username = u.tzprofiles_username := by
  cases tzkt with
  | none => rfl
  | some m =>
    unfold tzktBlock
    dsimp only
    cases m.twitter <;> cases m.discord <;> split_ifs <;> rfl

theorem tzprofilesBlock_username (u : TeiaUser) (tzp : Option TzProfile)
    (hz : u.tzprofiles_username = none) :
    (tzprofilesBlock u tzp).username =
      orName (tzp.bind (fun p => nonEmptyName (tzprofileName p))) u.username := by
  cases tzp with
  | none => simp [tzprofilesBlock, orName]
  | some p =>
    unfold tzprofilesBlock nonEmptyName orName
    dsimp only [Option.bind_some]
    cases htn : tzprofileName p with
    | none =>
      dsimp only
      rw [hz]
      cases p.twitter <;> cases p.discord <;> simp_all
    | some n =>
      dsimp only
      cases p.twitter <;> cases p.discord <;> split_ifs <;> simp_all

theorem registriesBlock_username (u : TeiaUser) (reg : Option String) :
    (registriesBlock u reg).username =
      orName (nonEmptyName (reg.map pyStrip)) u.username := by
  cases reg with
  | none => simp [registriesBlock, nonEmptyName, orName]
  | some r =>
    unfold registriesBlock nonEmptyName orName
    dsimp only [Option.map_some]
    split_ifs <;> simp_all

/-- C7 (amended): on a fresh profile, `set_profiles_information` resolves
`username` by this precedence, lowest to highest: tezos-domains name (which
never overrides, it only fills a still-unset username), fxhash name,
chain-explorer (tzkt) alias, external profile service (tzprofiles) resolved
name, marketplace-internal (H=N) registry name. In particular a non-empty
tzkt alias overrides a domain-registry name, not the other way around. -/
theorem username_priority_cascade (a : String) (i : Nat) (reg : Option String)
    (tzp : Option TzProfile) (tzkt : Option TzktMeta)
    (doms : Option (List DomainRecord)) (fx : Option String) :
    ((TeiaUser.new a i).set_profiles_information reg tzp tzkt doms fx).username =
      usernameCascade a reg tzp tzkt doms fx := by
  unfold TeiaUser.set_profiles_information usernameCascade
  rw [registriesBlock_username, tzprofilesBlock_username _ _
      (by rw [tzktBlock_tzprofiles_username, domainsBlock_tzprofiles_username,
        fxhashBlock_tzprofiles_username]; rfl),
    tzktBlock_username, domainsBlock_username, fxhashBlock_username _ _ rfl,
    fxhashBlock_address]
  rfl

/-- Counterexample for C7 as stated: a user owning the tezos domain
"alice.tez" whose chain-explorer (tzkt) alias is "Alice" ends up with
username "Alice" — the chain-explorer alias overrides the domain-registry
name, the opposite of the claimed precedence. -/
theorem username_priority_cascade_counterexample :
    ((TeiaUser.new "tz1A" 0).set_profiles_information none none
      (some ⟨"Alice", none, none, none, none, none, none, none⟩)
      (some [⟨"tz1A", "alice.tez", none⟩]) none).username = some "Alice" ∧
    (some "Alice" : Option String) ≠ some "alice.tez" := by
  constructor
  · decide
  · decide

/-! Token-distribution sum lemmas (C1, C8). -/

theorem optSum_map_some {α : Type} (l : List α) (g : α → ℚ) :
    optSum (l.map (fun x => some (g x))) = some ((l.map g).sum) := by
  induction l with
  | nil => rfl
  | cons x xs ih =>
    show fadd (some (g x)) (optSum (xs.map (fun x => some (g x)))) =
      some ((List.map g (x :: xs)).sum)
    rw [ih]
    simp [fadd]

theorem qSumMapAdd {α : Type} (l : List α) (f g : α → ℚ) :
    (l.map (fun x => f x + g x)).sum = (l.map f).sum + (l.map g).sum := by
  induction l with
  | nil => simp
  | cons x xs ih =>
    simp only [List.map_cons, List.sum_cons, ih]
    ring

theorem sum_map_div_self {α : Type} (k : ℚ) (l : List α) (f : α → ℚ)
    (h : (l.map f).sum ≠ 0) :
    (l.map (fun x => k * f x / (l.map f).sum)).sum = k := by
  have h2 : (l.map (fun x => k * f x / (l.map f).sum)) =
      l.map (fun x => (k / (l.map f).sum) * f x) := by
    apply List.map_congr_left
    intro a _
    ring
  rw [h2, List.sum_map_mul_left, div_mul_cancel₀ _ h]

theorem rat_sqrt_one : Rat.sqrt 1 = 1 := by decide

theorem rat_sqrt_zero : Rat.sqrt 0 = 0 := by decide

theorem fadd_none_right (x : Option ℚ) : fadd x none = none := by
  cases x <;> rfl

theorem fadd_none_left (y : Option ℚ) : fadd none y = none := rfl

/-- Under the no-zero-column hypotheses, a user's total allocation is the
plain sum of the nine normalized component amounts plus the hdao carryover. -/
theorem userTotal_eq (l : List DistUser) (u : DistUser)
    (h1 : (l.map rawActivity).sum ≠ 0) (h2 : (l.map rawTeiaActivity).sum ≠ 0)
    (h3 : (l.map rawVoting).sum ≠ 0) (h4 : (l.map rawMinting).sum ≠ 0)
    (h5 : (l.map rawCollecting).sum ≠ 0) (h6 : (l.map rawConnections).sum ≠ 0)
    (h7 : (l.map rawEarnings).sum ≠ 0) (h8 : (l.map rawSpending).sum ≠ 0)
    (h9 : (l.map rawContribution).sum ≠ 0) :
    userTotal l u = some (
      15/100 * totalActivityAmount l * rawActivity u / (l.map rawActivity).sum +
      15/100 * totalActivityAmount l * rawTeiaActivity u / (l.map rawTeiaActivity).sum +
      10/100 * totalActivityAmount l * rawVoting u / (l.map rawVoting).sum +
      6/100 * totalActivityAmount l * rawMinting u / (l.map rawMinting).sum +
      8/100 * totalActivityAmount l * rawCollecting u / (l.map rawCollecting).sum +
      6/100 * totalActivityAmount l * rawConnections u / (l.map rawConnections).sum +
      15/100 * totalActivityAmount l * rawEarnings u / (l.map rawEarnings).sum +
      15/100 * totalActivityAmount l * rawSpending u / (l.map rawSpending).sum +
      8/100 * totalActivityAmount l * rawContribution u / (l.map rawContribution).sum +
      u.hdao) := by
  unfold userTotal userTotalActivity compAmount npDiv
  rw [if_neg h1, if_neg h2, if_neg h3, if_neg h4, if_neg h5, if_neg h6,
    if_neg h7, if_neg h8, if_neg h9]
  rfl

/-- C1 (amended): the nine component weights sum to 0.98, not 1.0, so the
distribution is not conserved: whenever no component column sums to zero, the
sum of all non-restricted users' totals equals
`total_amount - treasury_amount - 0.02 * activity_pool` — short of
reconstructing the grand total by 2% of the activity pool. -/
theorem token_distribution_conservation (users : List DistUser)
    (h1 : ((nonRestricted users).map rawActivity).sum ≠ 0)
    (h2 : ((nonRestricted users).map rawTeiaActivity).sum ≠ 0)
    (h3 : ((nonRestricted users).map rawVoting).sum ≠ 0)
    (h4 : ((nonRestricted users).map rawMinting).sum ≠ 0)
    (h5 : ((nonRestricted users).map rawCollecting).sum ≠ 0)
    (h6 : ((nonRestricted users).map rawConnections).sum ≠ 0)
    (h7 : ((nonRestricted users).map rawEarnings).sum ≠ 0)
    (h8 : ((nonRestricted users).map rawSpending).sum ≠ 0)
    (h9 : ((nonRestricted users).map rawContribution).sum ≠ 0) :
    grandTotal users = some (totalAmount - treasuryAmount -
      (2/100) * totalActivityAmount (nonRestricted users)) := by
  have hmap : (nonRestricted users).map (userTotal (nonRestricted users)) =
      (nonRestricted users).map (fun u => some (
        15/100 * totalActivityAmount (nonRestricted users) * rawActivity u / ((nonRestricted users).map rawActivity).sum +
        15/100 * totalActivityAmount (nonRestricted users) * rawTeiaActivity u / ((nonRestricted users).map rawTeiaActivity).sum +
        10/100 * totalActivityAmount (nonRestricted users) * rawVoting u / ((nonRestricted users).map rawVoting).sum +
        6/100 * totalActivityAmount (nonRestricted users) * rawMinting u / ((nonRestricted users).map rawMinting).sum +
        8/100 * totalActivityAmount (nonRestricted users) * rawCollecting u / ((nonRestricted users).map rawCollecting).sum +
        6/100 * totalActivityAmount (nonRestricted users) * rawConnections u / ((nonRestricted users).map rawConnections).sum +
        15/100 * totalActivityAmount (nonRestricted users) * rawEarnings u / ((nonRestricted users).map rawEarnings).sum +
        15/100 * totalActivityAmount (nonRestricted users) * rawSpending u / ((nonRestricted users).map rawSpending).sum +
        8/100 * totalActivityAmount (nonRestricted users) * rawContribution u / ((nonRestricted users).map rawContribution).sum +
        u.hdao)) :=
    List.map_congr_left (fun u _ =>
      userTotal_eq (nonRestricted users) u h1 h2 h3 h4 h5 h6 h7 h8 h9)
  unfold grandTotal
  rw [hmap, optSum_map_some]
  congr 1
  simp only [qSumMapAdd]
  rw [sum_map_div_self (15/100 * totalActivityAmount (nonRestricted users))
      (nonRestricted users) rawActivity h1,
    sum_map_div_self (15/100 * totalActivityAmount (nonRestricted users))
      (nonRestricted users) rawTeiaActivity h2,
    sum_map_div_self (10/100 * totalActivityAmount (nonRestricted users))
      (nonRestricted users) rawVoting h3,
    sum_map_div_self (6/100 * totalActivityAmount (nonRestricted users))
      (nonRestricted users) rawMinting h4,
    sum_map_div_self (8/100 * totalActivityAmount (nonRestricted users))
      (nonRestricted users) rawCollecting h5,
    sum_map_div_self (6/100 * totalActivityAmount (nonRestricted users))
      (nonRestricted users) rawConnections h6,
    sum_map_div_self (15/100 * totalActivityAmount (nonRestricted users))
      (nonRestricted users) rawEarnings h7,
    sum_map_div_self (15/100 * totalActivityAmount (nonRestricted users))
      (nonRestricted users) rawSpending h8,
    sum_map_div_self (8/100 * totalActivityAmount (nonRestricted users))
      (nonRestricted users) rawContribution h9]
  unfold totalActivityAmount hdaoSum
  ring

/-- Witness for C1: on the one-contributor table every column sums to 3, and
the total distribution realizes the amended (non-conserving) sum. -/
theorem token_distribution_conservation_witness :
    grandTotal [c1User] = some (totalAmount - treasuryAmount -
      (2/100) * totalActivityAmount (nonRestricted [c1User])) :=
  token_distribution_conservation [c1User]
    (by norm_num [nonRestricted, rawActivity, scalingFactor, c1User])
    (by norm_num [nonRestricted, rawTeiaActivity, scalingFactor, c1User])
    (by norm_num [nonRestricted, rawVoting, scalingFactor, c1User, rat_sqrt_one])
    (by norm_num [nonRestricted, rawMinting, scalingFactor, c1User, rat_sqrt_one])
    (by norm_num [nonRestricted, rawCollecting, scalingFactor, c1User, rat_sqrt_one])
    (by norm_num [nonRestricted, rawConnections, scalingFactor, c1User, rat_sqrt_one])
    (by norm_num [nonRestricted, rawEarnings, scalingFactor, washMult, c1User, rat_sqrt_one])
    (by norm_num [nonRestricted, rawSpending, scalingFactor, washMult, c1User, rat_sqrt_one])
    (by norm_num [nonRestricted, rawContribution, scalingFactor, c1User])

/-- Counterexample for C1 as stated: on the one-contributor table the
distributed total is 5,047,000, so totals plus the 350,000 treasury give
5,397,000 — missing the configured 5,500,000 by 103,000, far beyond the 1e-6
relative tolerance (the nine weights sum to 0.98, not 1.0). -/
theorem token_distribution_conservation_counterexample :
    grandTotal [c1User] = some 5047000 ∧
    ¬(|(5047000 : ℚ) + treasuryAmount - totalAmount| ≤
      totalAmount * (1/1000000)) := by
  constructor
  · simp [grandTotal, optSum, userTotal, userTotalActivity, compAmount, npDiv,
      fadd, nonRestricted, totalActivityAmount, hdaoSum, totalAmount,
      treasuryAmount, rawActivity, rawTeiaActivity, rawVoting, rawMinting,
      rawCollecting, rawConnections, rawEarnings, rawSpending, rawContribution,
      scalingFactor, washMult, c1User, rat_sqrt_one] <;> norm_num
  · norm_num [treasuryAmount, totalAmount]

/-- C8 (amended): when some component's scaled raw column sums to zero (here
the voting component), the token allocation computation does not abort: numpy
float division by zero silently yields NaN (`none`), which propagates to that
component's amount and to every user's total. -/
theorem voting_zero_sum_silent_nan (users : List DistUser) (u : DistUser)
    (h : ((nonRestricted users).map rawVoting).sum = 0) :
    compAmount (10/100) (nonRestricted users) rawVoting u = none ∧
    userTotal (nonRestricted users) u = none := by
  have hc : compAmount (10/100) (nonRestricted users) rawVoting u = none := by
    simp [compAmount, npDiv, h]
  refine ⟨hc, ?_⟩
  unfold userTotal userTotalActivity
  rw [hc]
  simp [fadd_none_left, fadd_none_right]

/-- Witness for C8: a single active user with zero votes zeroes the voting
column, and their voting amount and total are both NaN. -/
theorem voting_zero_sum_silent_nan_witness :
    compAmount (10/100) (nonRestricted [c8User]) rawVoting c8User = none ∧
    userTotal (nonRestricted [c8User]) c8User = none :=
  voting_zero_sum_silent_nan [c8User] c8User
    (by norm_num [nonRestricted, rawVoting, scalingFactor, c8User, rat_sqrt_zero])

/-- Counterexample for C8 as stated: on the zero-votes table the computation
returns a value — a silently-NaN grand total — instead of aborting with an
error (the embedding has no error outcome at all: numpy float division never
raises). -/
theorem voting_zero_sum_counterexample :
    grandTotal [c8User] = none := by
  simp [grandTotal, optSum, userTotal, userTotalActivity, compAmount, npDiv,
    fadd, nonRestricted, totalActivityAmount, hdaoSum, totalAmount,
    treasuryAmount, rawActivity, rawTeiaActivity, rawVoting, rawMinting,
    rawCollecting, rawConnections, rawEarnings, rawSpending, rawContribution,
    scalingFactor, washMult, c8User, rat_sqrt_zero, rat_sqrt_one]

/-- Counterexample for C9 as stated: `c9User` is reachable through the cited
ingestion operation (a collect whose collector `tz1Gone` triggered no other
event for the creator's profile), yet compressing its connections against a
registry that does not list `tz1Gone` raises `KeyError` instead of
auto-creating a profile for the missing peer. -/
theorem compress_connections_counterexample :
    c9User.bind (fun u => u.compress_connections [("tz1A", u)]) =
      .error "KeyError: tz1Gone" := by
  simp [c9User, TeiaUser.add_collect_transaction, collectAsCreator,
    collectAsSeller, collectAsCollector, promoteSwapper, promotePatron,
    TeiaUser.new, incrConn, minActivity, maxActivity, minObjkt, maxObjkt,
    teiaMarketplaceAddress, CollectParam.swapId, List.lookup,
    TeiaUser.compress_connections, compressMap, Except.bind, Except.map]

end TeiaStats
